import Mathlib

/-!
# Verification of the ms-drive change-tracking and ingestion core

Shallow embedding of the ms-drive service (Python sources under `app/`),
covering:

* `DriveWatcher.check_for_new_files` and `DriveWatcher.reset_processed_files`
  (`app/service/driver_watcher.py`),
* `sync_drive_files` (`app/repository/drive_file_repository.py`),
* `AnalysisSaveConsumer.process_analysis_event` and the consume loop
  (`app/event/consumer/analysis_save_consumer.py`),
* the `create_drive_folder` endpoint (`app/api/v1/endpoints/drive.py`)
  together with the request model `FolderCreate` (`app/model/model.py`) and
  the table models (`app/model/db_model.py`).

Modelling conventions: Python `datetime` values are modeled as `Nat`
(`Time`); `dateutil.parser.parse` is an external collaborator and is passed
in as a function `String → Option Time` (`none` models a raised
`ValueError`); Python `str` values are Lean `String`s (which are always
valid Unicode, so the defensive `safe_str` re-encoding is the identity on
them); optional Python values are `Option`s.
-/

/-- Timestamps (`datetime` values) are modeled as naturals. -/
abbrev Time := Nat

/-- `app/model/model.py`, `DriveFile`: the pydantic schema for Google Drive
file metadata.  The Drive listing dictionaries returned by
`DriveWatcher.list_files` carry exactly the non-`detected_at` fields;
`check_for_new_files` adds the `detected_at` key to the dictionaries it
emits, which is modeled by the optional `detected_at` field. -/
structure DriveFile where
  id : String
  name : String
  mimeType : String
  modifiedTime : String
  webViewLink : Option String
  detected_at : Option String
deriving Repr, DecidableEq

/-! ## Change Feed Tracker: `DriveWatcher` (`app/service/driver_watcher.py`)

The watcher keeps `self.processed_files`, an in-memory set of already
emitted external file ids, modeled as a duplicate-free `List String`.
`check_for_new_files` (lines 108-125) lists the remote folder and, for each
listed file whose id is not in the set, stamps `detected_at`, emits it, and
adds the id to the set.  `reset_processed_files` (lines 150-153) clears the
set.  The remote listing is an input of the model (it is produced by the
external Drive client). -/

/-- Loop body of `check_for_new_files` (driver_watcher.py lines 114-121):
iterate over the listing, skip ids already in `processed`, otherwise stamp
`detected_at := now`, append to `new_files` and add the id to the set. -/
def checkLoop (now : String) (processed : List String) :
    List DriveFile → List DriveFile × List String
  | [] => ([], processed)
  | f :: fs =>
    if f.id ∈ processed then
      checkLoop now processed fs
    else
      let r := checkLoop now (f.id :: processed) fs
      ({ f with detected_at := some now } :: r.1, r.2)

/-- `DriveWatcher.check_for_new_files` (driver_watcher.py lines 108-125),
given the current remote `listing`: returns the batch of newly detected
files and the updated `processed_files` set. -/
def check_for_new_files (now : String) (processed : List String)
    (listing : List DriveFile) : List DriveFile × List String :=
  checkLoop now processed listing

/-- One watcher-facing operation: a poll (push notifications also route to
`check_for_new_files`, see drive.py lines 125-160) against the listing the
remote system returns at that moment, or `reset_processed_files`. -/
inductive WatchOp where
  | poll (listing : List DriveFile) (now : String)
  | reset
deriving Repr, DecidableEq

/-- Effect of one operation on the `processed_files` set; a poll returns its
batch, `reset_processed_files` (lines 150-153) clears the set. -/
def watchStep (processed : List String) : WatchOp → List DriveFile × List String
  | .poll listing now => check_for_new_files now processed listing
  | .reset => ([], [])

/-- Run a sequence of operations from a given `processed_files` set,
collecting the batch returned by each operation and the final set. -/
def watchRun (processed : List String) :
    List WatchOp → List (List DriveFile) × List String
  | [] => ([], processed)
  | op :: ops =>
    let r := watchStep processed op
    let rest := watchRun r.2 ops
    (r.1 :: rest.1, rest.2)

theorem checkLoop_processed_mono (now : String) (fs : List DriveFile)
    (a : String) : ∀ processed, a ∈ processed → a ∈ (checkLoop now processed fs).2 := by
  induction fs with
  | nil => intro p h; simpa [checkLoop] using h
  | cons f fs ih =>
    intro p h
    by_cases hf : f.id ∈ p
    · simpa [checkLoop, hf] using ih p h
    · simpa [checkLoop, hf] using ih (f.id :: p) (List.mem_cons_of_mem _ h)

theorem checkLoop_emit_not_processed (now : String) (fs : List DriveFile) :
    ∀ processed, ∀ g ∈ (checkLoop now processed fs).1, g.id ∉ processed := by
  induction fs with
  | nil => intro p g hg; simp [checkLoop] at hg
  | cons f fs ih =>
    intro p g hg
    by_cases hf : f.id ∈ p
    · exact ih p g (by simpa [checkLoop, hf] using hg)
    · simp only [checkLoop, hf, if_neg, if_false, List.mem_cons] at hg
      rcases hg with hg | hg
      · subst hg; simpa using hf
      · intro hp
        exact ih (f.id :: p) g hg (List.mem_cons_of_mem _ hp)

theorem checkLoop_emit_mem_after (now : String) (fs : List DriveFile) :
    ∀ processed, ∀ g ∈ (checkLoop now processed fs).1,
      g.id ∈ (checkLoop now processed fs).2 := by
  induction fs with
  | nil => intro p g hg; simp [checkLoop] at hg
  | cons f fs ih =>
    intro p g hg
    by_cases hf : f.id ∈ p
    · simp only [checkLoop, hf, if_pos] at hg ⊢
      exact ih p g hg
    · simp only [checkLoop, hf, if_neg, if_false, List.mem_cons] at hg ⊢
      rcases hg with hg | hg
      · subst hg
        exact checkLoop_processed_mono now fs f.id (f.id :: p) (List.mem_cons_self _ _)
      · exact ih (f.id :: p) g hg

theorem watchRun_noreset_mono (a : String) :
    ∀ ops : List WatchOp, WatchOp.reset ∉ ops →
      ∀ s, a ∈ s → a ∈ (watchRun s ops).2 := by
  intro ops
  induction ops with
  | nil => intro _ s h; simpa [watchRun] using h
  | cons op ops ih =>
    intro hmem s h
    have hop : op ≠ WatchOp.reset := fun he => hmem (he ▸ List.mem_cons_self _ _)
    have hops : WatchOp.reset ∉ ops := fun he => hmem (List.mem_cons_of_mem _ he)
    cases op with
    | poll listing now =>
      simp only [watchRun, watchStep, check_for_new_files]
      exact ih hops _ (checkLoop_processed_mono now listing a s h)
    | reset => exact absurd rfl hop

theorem watchRun_append (bs : List WatchOp) :
    ∀ (s : List String) (as : List WatchOp),
      watchRun s (as ++ bs) =
        ((watchRun s as).1 ++ (watchRun (watchRun s as).2 bs).1,
          (watchRun (watchRun s as).2 bs).2) := by
  intro s as
  induction as generalizing s with
  | nil => simp [watchRun]
  | cons op ops ih => simp [watchRun, ih]

/-- C1: across any operation sequence `pre ++ [poll l₁ t₁] ++ mid ++ [poll l₂ t₂] ++ suf`
run from any starting `processed_files` set, the two polls produce exactly
the batches `(watchStep · (poll lᵢ tᵢ)).1` shown (first conjunct), and if no
`reset_processed_files` occurs in `mid`, an external file id emitted by the
first poll never reappears in the batch of the second poll (second
conjunct): each id appears in at most one returned batch per reset cycle. -/
theorem check_for_new_files_at_most_once_per_reset_cycle
    (s : List String) (pre mid suf : List WatchOp) (l₁ l₂ : List DriveFile)
    (t₁ t₂ : String) (hmid : WatchOp.reset ∉ mid) :
    (watchRun s (pre ++ WatchOp.poll l₁ t₁ :: (mid ++ WatchOp.poll l₂ t₂ :: suf))).1 =
      (watchRun s pre).1 ++
        (watchStep (watchRun s pre).2 (WatchOp.poll l₁ t₁)).1 ::
          ((watchRun (watchStep (watchRun s pre).2 (WatchOp.poll l₁ t₁)).2 mid).1 ++
            (watchStep (watchRun (watchStep (watchRun s pre).2 (WatchOp.poll l₁ t₁)).2 mid).2
                (WatchOp.poll l₂ t₂)).1 ::
              (watchRun
                (watchStep
                  (watchRun (watchStep (watchRun s pre).2 (WatchOp.poll l₁ t₁)).2 mid).2
                  (WatchOp.poll l₂ t₂)).2 suf).1) ∧
    ∀ f ∈ (watchStep (watchRun s pre).2 (WatchOp.poll l₁ t₁)).1,
      ∀ g ∈ (watchStep (watchRun (watchStep (watchRun s pre).2 (WatchOp.poll l₁ t₁)).2 mid).2
          (WatchOp.poll l₂ t₂)).1,
        g.id ≠ f.id := by
  constructor
  · rw [watchRun_append]
    simp [watchRun, watchRun_append]
  · intro f hf g hg he
    have h1 : f.id ∈ (watchStep (watchRun s pre).2 (WatchOp.poll l₁ t₁)).2 := by
      simpa [watchStep, check_for_new_files] using
        checkLoop_emit_mem_after t₁ l₁ (watchRun s pre).2 f
          (by simpa [watchStep, check_for_new_files] using hf)
    have h2 : f.id ∈ (watchRun (watchStep (watchRun s pre).2 (WatchOp.poll l₁ t₁)).2 mid).2 :=
      watchRun_noreset_mono f.id mid hmid _ h1
    have h3 : g.id ∉ (watchRun (watchStep (watchRun s pre).2 (WatchOp.poll l₁ t₁)).2 mid).2 :=
      checkLoop_emit_not_processed t₂ l₂ _ g
        (by simpa [watchStep, check_for_new_files] using hg)
    exact h3 (he ▸ h2)

/-- A concrete remote file used by the concrete instances below. -/
def fileF1 : DriveFile :=
  { id := "f1", name := "Doc.pdf", mimeType := "application/pdf",
    modifiedTime := "2024-01-01T00:00:00Z", webViewLink := none, detected_at := none }

/-- Witness for C1 at the concrete run `[poll [fileF1] "t1", poll [fileF1] "t2"]`
from the empty set: the hypothesis `reset ∉ []` holds and the theorem applies. -/
theorem check_for_new_files_at_most_once_witness :
    WatchOp.reset ∉ ([] : List WatchOp) ∧
    ((watchRun [] ([] ++ WatchOp.poll [fileF1] "t1" ::
          ([] ++ WatchOp.poll [fileF1] "t2" :: []))).1 =
      (watchRun [] []).1 ++
        (watchStep (watchRun ([] : List String) []).2 (WatchOp.poll [fileF1] "t1")).1 ::
          ((watchRun (watchStep (watchRun ([] : List String) []).2
              (WatchOp.poll [fileF1] "t1")).2 []).1 ++
            (watchStep (watchRun (watchStep (watchRun ([] : List String) []).2
                (WatchOp.poll [fileF1] "t1")).2 []).2 (WatchOp.poll [fileF1] "t2")).1 ::
              (watchRun
                (watchStep
                  (watchRun (watchStep (watchRun ([] : List String) []).2
                    (WatchOp.poll [fileF1] "t1")).2 []).2
                  (WatchOp.poll [fileF1] "t2")).2 []).1) ∧
    ∀ f ∈ (watchStep (watchRun ([] : List String) []).2 (WatchOp.poll [fileF1] "t1")).1,
      ∀ g ∈ (watchStep (watchRun (watchStep (watchRun ([] : List String) []).2
          (WatchOp.poll [fileF1] "t1")).2 []).2 (WatchOp.poll [fileF1] "t2")).1,
        g.id ≠ f.id) :=
  ⟨by simp,
    check_for_new_files_at_most_once_per_reset_cycle [] [] [] [] [fileF1] [fileF1]
      "t1" "t2" (by simp)⟩

/-! ## File Sync Engine: `sync_drive_files` (`app/repository/drive_file_repository.py`)

The database table `drive_files` (db_model.py lines 39-51) is modeled as a
`List DriveFileRow`; the surrogate primary key `id`, the `folder_id` foreign
key and the `created_at` default column are not touched by
`sync_drive_files` and are omitted from the row model.  `file_id` is
declared `unique=True` (db_model.py line 43); the session is created with
`autoflush=False` (database.py lines 52-56), so the lookup at repository
line 66 sees only committed rows (plus in-session mutations of them, which
the identity map returns), never the pending inserts — the model therefore
keeps the committed table and the pending inserts separate and enforces the
uniqueness constraint on the pending inserts at commit time.  `commitOk`
models an environmental commit failure (lines 100-103), `publishOk` a Kafka
publish failure (lines 121-125, caught and logged). -/

/-- Row of the `drive_files` table written by `sync_drive_files`. -/
structure DriveFileRow where
  file_id : String
  name : String
  mime_type : String
  modified_time : Time
  web_view_link : Option String
  detected_at : Option Time
  processed : Bool
deriving Repr, DecidableEq

/-- `safe_str` (repository lines 17-26): re-encode a text value defensively.
Lean strings are always valid Unicode, on which the re-encoding is the
identity. -/
def safe_str (s : String) : String := s

/-- Lines 54 and 75/87-88: `str(None)` is the string `"None"`, which the
code then maps back to SQL `NULL`; a present link is kept unless it equals
`"None"`. -/
def normalizeWebViewLink (w : Option String) : Option String :=
  let s := safe_str (match w with | some v => v | none => "None")
  if s ≠ "None" then some s else none

/-- Lines 57-63: `parse_date(modifiedTime) if modifiedTime else utcnow()`,
with a parse failure (`none`) falling back to `utcnow()` (= `now`). -/
def observedTime (parseDate : String → Option Time) (now : Time) (mt : String) : Time :=
  if mt = "" then now else (parseDate mt).getD now

/-- Lines 70-77: the freshly inserted row — `detected_at := now`,
`processed` takes its column default `False`. -/
def newRowOf (parseDate : String → Option Time) (now : Time) (f : DriveFile) : DriveFileRow :=
  { file_id := safe_str f.id, name := safe_str f.name,
    mime_type := safe_str f.mimeType,
    modified_time := observedTime parseDate now f.modifiedTime,
    web_view_link := normalizeWebViewLink f.webViewLink,
    detected_at := some now, processed := false }

/-- Lines 84-89: in-place update of an existing row; `file_id`,
`detected_at` and `processed` are not touched. -/
def applyUpdate (parseDate : String → Option Time) (now : Time) (f : DriveFile)
    (r : DriveFileRow) : DriveFileRow :=
  { r with
      name := safe_str f.name,
      mime_type := safe_str f.mimeType,
      modified_time := observedTime parseDate now f.modifiedTime,
      web_view_link := normalizeWebViewLink f.webViewLink }

/-- Mutating the object returned by `.first()` updates exactly the first
matching row of the table. -/
def replaceFirst (p : DriveFileRow → Bool) (u : DriveFileRow → DriveFileRow) :
    List DriveFileRow → List DriveFileRow
  | [] => []
  | r :: rs => if p r then u r :: rs else r :: replaceFirst p u rs

/-- Loop body for one observation (lines 47-94): look the file up by
external id in the committed table; absent → stage a new row (second
component), present → update in place only if the stored modification
timestamp differs from the observed one.  The only fallible step inside the
per-file `try` — timestamp parsing — is already handled at lines 58-63, so
the per-item `except` has nothing left to catch in the model. -/
def syncOne (parseDate : String → Option Time) (now : Time)
    (db : List DriveFileRow) (f : DriveFile) :
    List DriveFileRow × Option DriveFileRow :=
  match db.find? (fun r => r.file_id == safe_str f.id) with
  | none => (db, some (newRowOf parseDate now f))
  | some r =>
    if r.modified_time ≠ observedTime parseDate now f.modifiedTime then
      (replaceFirst (fun r' => r'.file_id == safe_str f.id)
        (applyUpdate parseDate now f) db, none)
    else (db, none)

/-- The `for drive_file in drive_files` loop: threads the (mutated)
committed table and accumulates the staged inserts (`new_files`). -/
def syncLoop (parseDate : String → Option Time) (now : Time) :
    List DriveFileRow → List DriveFileRow → List DriveFile →
      List DriveFileRow × List DriveFileRow
  | db, pending, [] => (db, pending)
  | db, pending, f :: fs =>
    let r := syncOne parseDate now db f
    match r.2 with
    | none => syncLoop parseDate now r.1 pending fs
    | some row => syncLoop parseDate now r.1 (pending ++ [row]) fs

/-- `db.commit()` (lines 97-103): all staged changes land atomically; the
commit fails (rolling everything back) on an environmental error
(`commitOk = false`) or when the staged inserts violate the `unique=True`
constraint on `drive_files.file_id`. -/
def commitSync (commitOk : Bool) (db pending : List DriveFileRow) :
    Option (List DriveFileRow) :=
  if commitOk = true ∧ (pending.map (fun r => r.file_id)).Nodup ∧
      ∀ r ∈ pending, r.file_id ∉ db.map (fun r' => r'.file_id)
  then some (db ++ pending) else none

/-- The `drive-files-synced` event payload (lines 105-119): summarizes the
newly inserted files only — never the updated ones. -/
structure SyncEvent where
  file_ids : List String
  file_names : List String
  mime_types : List String
  modified_times : List Time
  web_view_links : List (Option String)
  detected_at : Time
deriving Repr, DecidableEq

/-- Event construction from `new_files` (lines 105-119). -/
def mkSyncEvent (now : Time) (new_files : List DriveFileRow) : SyncEvent :=
  { file_ids := new_files.map (fun r => r.file_id),
    file_names := new_files.map (fun r => r.name),
    mime_types := new_files.map (fun r => r.mime_type),
    modified_times := new_files.map (fun r => r.modified_time),
    web_view_links := new_files.map (fun r => r.web_view_link),
    detected_at := now }

inductive SyncError where
  | commitError
deriving Repr, DecidableEq

/-- `sync_drive_files` (repository lines 29-132): process every observation,
commit the batch atomically, then build the event and attempt to publish it
— the publish `except` at lines 124-125 swallows a publish failure, so the
call still returns the inserted rows.  The result carries the committed
table, the returned `new_files` list, and the list of events actually
delivered to Kafka. -/
def sync_drive_files (parseDate : String → Option Time) (now : Time)
    (commitOk publishOk : Bool) (db : List DriveFileRow)
    (files : List DriveFile) :
    Except SyncError (List DriveFileRow × List DriveFileRow × List SyncEvent) :=
  match commitSync commitOk (syncLoop parseDate now db [] files).1
      (syncLoop parseDate now db [] files).2 with
  | none => .error .commitError
  | some db' =>
    .ok (db', (syncLoop parseDate now db [] files).2,
      if publishOk then [mkSyncEvent now (syncLoop parseDate now db [] files).2] else [])

theorem applyUpdate_file_id (parseDate : String → Option Time) (now : Time)
    (f : DriveFile) (r : DriveFileRow) :
    (applyUpdate parseDate now f r).file_id = r.file_id := rfl

theorem replaceFirst_map_file_id (p : DriveFileRow → Bool)
    (u : DriveFileRow → DriveFileRow) (hu : ∀ r, (u r).file_id = r.file_id) :
    ∀ l, (replaceFirst p u l).map (fun r => r.file_id) =
      l.map (fun r => r.file_id) := by
  intro l
  induction l with
  | nil => rfl
  | cons r rs ih =>
    by_cases hp : p r
    · simp [replaceFirst, hp, hu]
    · simp [replaceFirst, hp, ih]

theorem syncOne_db_ids (parseDate : String → Option Time) (now : Time)
    (db : List DriveFileRow) (f : DriveFile) :
    ((syncOne parseDate now db f).1).map (fun r => r.file_id) =
      db.map (fun r => r.file_id) := by
  unfold syncOne
  cases hf : db.find? (fun r => r.file_id == safe_str f.id) with
  | none => rfl
  | some r =>
    by_cases hm : r.modified_time ≠ observedTime parseDate now f.modifiedTime
    · simp only [if_pos hm]
      exact replaceFirst_map_file_id _ (applyUpdate parseDate now f) (fun r' => rfl) db
    · simp only [if_neg hm]

theorem syncOne_staged (parseDate : String → Option Time) (now : Time)
    (db : List DriveFileRow) (f : DriveFile) (row : DriveFileRow)
    (h : (syncOne parseDate now db f).2 = some row) :
    row = newRowOf parseDate now f := by
  unfold syncOne at h
  split at h
  · exact (Option.some.inj h).symm
  · split at h <;> exact absurd h (by simp)

theorem syncOne_none_found (parseDate : String → Option Time) (now : Time)
    (db : List DriveFileRow) (f : DriveFile)
    (h : (syncOne parseDate now db f).2 = none) :
    safe_str f.id ∈ db.map (fun r => r.file_id) := by
  unfold syncOne at h
  split at h
  · exact absurd h (by simp)
  · next r hfind =>
    have hr : r ∈ db := List.mem_of_find?_eq_some hfind
    have hid : r.file_id = safe_str f.id := by simpa using List.find?_some hfind
    exact hid ▸ List.mem_map_of_mem _ hr

theorem syncLoop_db_ids (parseDate : String → Option Time) (now : Time)
    (fs : List DriveFile) : ∀ db pending,
    ((syncLoop parseDate now db pending fs).1).map (fun r => r.file_id) =
      db.map (fun r => r.file_id) := by
  induction fs with
  | nil => intro db pending; rfl
  | cons f fs ih =>
    intro db pending
    simp only [syncLoop]
    cases ho : (syncOne parseDate now db f).2 with
    | none => simp only [ho]; rw [ih, syncOne_db_ids]
    | some row => simp only [ho]; rw [ih, syncOne_db_ids]

theorem syncLoop_pending_accum (parseDate : String → Option Time) (now : Time)
    (fs : List DriveFile) : ∀ db pending,
    syncLoop parseDate now db pending fs =
      ((syncLoop parseDate now db [] fs).1,
        pending ++ (syncLoop parseDate now db [] fs).2) := by
  induction fs with
  | nil => intro db pending; simp [syncLoop]
  | cons f fs ih =>
    intro db pending
    simp only [syncLoop]
    cases ho : (syncOne parseDate now db f).2 with
    | none => simp only [ho]; exact ih _ pending
    | some row =>
      simp only [ho]
      rw [ih _ (pending ++ [row]), ih _ ([] ++ [row])]
      simp

theorem syncLoop_covers (parseDate : String → Option Time) (now : Time)
    (fs : List DriveFile) : ∀ db pending, ∀ f ∈ fs,
    safe_str f.id ∈
      ((syncLoop parseDate now db pending fs).1).map (fun r => r.file_id) ++
        ((syncLoop parseDate now db pending fs).2).map (fun r => r.file_id) := by
  induction fs with
  | nil => intro db pending f hf; simp at hf
  | cons g fs ih =>
    intro db pending f hf
    simp only [syncLoop]
    rcases List.mem_cons.mp hf with hfg | hf'
    · subst hfg
      cases ho : (syncOne parseDate now db f).2 with
      | none =>
        simp only [ho]
        refine List.mem_append.mpr (Or.inl ?_)
        rw [syncLoop_db_ids, syncOne_db_ids]
        exact syncOne_none_found parseDate now db f ho
      | some row =>
        simp only [ho]
        refine List.mem_append.mpr (Or.inr ?_)
        rw [syncLoop_pending_accum]
        have hrow : row = newRowOf parseDate now f := syncOne_staged _ _ _ _ _ ho
        have hmem : row ∈ pending ++ [row] ++ (syncLoop parseDate now
            (syncOne parseDate now db f).1 [] fs).2 := by
          simp
        have hid : row.file_id = safe_str f.id := by rw [hrow]; rfl
        exact hid ▸ List.mem_map_of_mem _ hmem
    · cases ho : (syncOne parseDate now db g).2 <;>
        · simp only [ho]
          exact ih _ _ f hf'

theorem syncLoop_all_present (parseDate : String → Option Time) (now : Time)
    (fs : List DriveFile) : ∀ db pending,
    (∀ f ∈ fs, safe_str f.id ∈ db.map (fun r => r.file_id)) →
    (syncLoop parseDate now db pending fs).2 = pending := by
  induction fs with
  | nil => intro db pending _; rfl
  | cons f fs ih =>
    intro db pending h
    have hf : safe_str f.id ∈ db.map (fun r => r.file_id) :=
      h f (List.mem_cons_self _ _)
    have ho : (syncOne parseDate now db f).2 = none := by
      rcases List.mem_map.mp hf with ⟨r, hr, hid⟩
      unfold syncOne
      split
      · next hfind =>
        exfalso
        have := List.find?_eq_none.mp hfind r hr
        simp [hid] at this
      · split <;> rfl
    simp only [syncLoop, ho]
    apply ih
    intro g hg
    rw [syncOne_db_ids]
    exact h g (List.mem_cons_of_mem _ hg)

/-- C7: for a single observation `f` processed by `sync_drive_files` (with a
successful commit): if no row with its external file id exists, exactly the
new row `newRowOf` — whose `detected_at` is the current time `now` — is
inserted and returned; if a row exists and its stored modification
timestamp equals the observed one, the table is returned untouched; if the
stored timestamp differs, the first matching row is updated in place via
`applyUpdate` and nothing is inserted. -/
theorem sync_drive_files_upsert_per_observation
    (parseDate : String → Option Time) (now : Time) (publishOk : Bool)
    (db : List DriveFileRow) (f : DriveFile) :
    (db.find? (fun r => r.file_id == safe_str f.id) = none →
      sync_drive_files parseDate now true publishOk db [f] =
        .ok (db ++ [newRowOf parseDate now f], [newRowOf parseDate now f],
          if publishOk then [mkSyncEvent now [newRowOf parseDate now f]] else [])) ∧
    (∀ r, db.find? (fun r' => r'.file_id == safe_str f.id) = some r →
      r.modified_time = observedTime parseDate now f.modifiedTime →
      sync_drive_files parseDate now true publishOk db [f] =
        .ok (db, [], if publishOk then [mkSyncEvent now []] else [])) ∧
    (∀ r, db.find? (fun r' => r'.file_id == safe_str f.id) = some r →
      r.modified_time ≠ observedTime parseDate now f.modifiedTime →
      sync_drive_files parseDate now true publishOk db [f] =
        .ok (replaceFirst (fun r' => r'.file_id == safe_str f.id)
            (applyUpdate parseDate now f) db, [],
          if publishOk then [mkSyncEvent now []] else [])) := by
  refine ⟨?_, ?_, ?_⟩
  · intro h
    have hnot : safe_str f.id ∉ db.map (fun r => r.file_id) := by
      intro hmem
      rcases List.mem_map.mp hmem with ⟨r, hr, hid⟩
      have := List.find?_eq_none.mp h r hr
      simp [hid] at this
    have hL : syncLoop parseDate now db [] [f] = (db, [newRowOf parseDate now f]) := by
      simp [syncLoop, syncOne, h]
    have hc : commitSync true db [newRowOf parseDate now f] =
        some (db ++ [newRowOf parseDate now f]) := by
      unfold commitSync
      rw [if_pos]
      refine ⟨rfl, by simp, ?_⟩
      intro r hr
      have : r = newRowOf parseDate now f := by simpa using hr
      subst this
      exact hnot
    unfold sync_drive_files
    rw [hL]
    rw [hc]
  · intro r hfind hmod
    have hL : syncLoop parseDate now db [] [f] = (db, []) := by
      simp [syncLoop, syncOne, hfind, hmod]
    have hc : commitSync true db [] = some (db ++ []) := by
      unfold commitSync
      rw [if_pos]
      exact ⟨rfl, by simp, by simp⟩
    unfold sync_drive_files
    rw [hL, hc]
    simp
  · intro r hfind hmod
    have hL : syncLoop parseDate now db [] [f] =
        (replaceFirst (fun r' => r'.file_id == safe_str f.id)
          (applyUpdate parseDate now f) db, []) := by
      simp [syncLoop, syncOne, hfind, hmod]
    have hc : commitSync true (replaceFirst (fun r' => r'.file_id == safe_str f.id)
        (applyUpdate parseDate now f) db) [] =
        some (replaceFirst (fun r' => r'.file_id == safe_str f.id)
          (applyUpdate parseDate now f) db ++ []) := by
      unfold commitSync
      rw [if_pos]
      exact ⟨rfl, by simp, by simp⟩
    unfold sync_drive_files
    rw [hL, hc]
    simp

/-- Witness for C7 at a concrete observation over the empty table: the
absent case fires and inserts the row with `detected_at = 7`. -/
theorem sync_drive_files_upsert_witness :
    sync_drive_files (fun _ => some 100) 7 true true [] [fileF1] =
      .ok ([] ++ [newRowOf (fun _ => some 100) 7 fileF1],
        [newRowOf (fun _ => some 100) 7 fileF1],
        if true then [mkSyncEvent 7 [newRowOf (fun _ => some 100) 7 fileF1]] else []) :=
  (sync_drive_files_upsert_per_observation (fun _ => some 100) 7 true [] fileF1).1
    (by rfl)

/-- C10: a Kafka publish failure after the database commit (the `except` at
repository lines 124-125) changes nothing except that no event is
delivered: the call still succeeds, returns the same inserted rows, and the
committed table is exactly the one of the successful-publish run. -/
theorem sync_drive_files_publish_failure_keeps_commit
    (parseDate : String → Option Time) (now : Time) (commitOk : Bool)
    (db : List DriveFileRow) (files : List DriveFile) :
    sync_drive_files parseDate now commitOk false db files =
      match sync_drive_files parseDate now commitOk true db files with
      | .ok (db', new_files, _) => .ok (db', new_files, [])
      | .error e => .error e := by
  unfold sync_drive_files
  cases commitSync commitOk (syncLoop parseDate now db [] files).1
      (syncLoop parseDate now db [] files).2 <;> simp

/-- C4 (amended): a successful `sync_drive_files` call emits exactly one
event, summarizing exactly the newly inserted rows of that batch (and not
the updates); running the same observation list again against the committed
table inserts zero additional rows — but it still emits one further event,
whose per-file lists are empty, rather than zero events. -/
theorem sync_drive_files_idempotent_rows_single_event
    (parseDate : String → Option Time) (n₁ n₂ : Time)
    (db db₁ new₁ : List DriveFileRow) (evs₁ : List SyncEvent)
    (files : List DriveFile)
    (h : sync_drive_files parseDate n₁ true true db files = .ok (db₁, new₁, evs₁)) :
    evs₁ = [mkSyncEvent n₁ new₁] ∧
    ∃ db₂, sync_drive_files parseDate n₂ true true db₁ files =
        .ok (db₂, [], [mkSyncEvent n₂ []]) ∧
      db₂.map (fun r => r.file_id) = db₁.map (fun r => r.file_id) := by
  unfold sync_drive_files at h
  cases hc : commitSync true (syncLoop parseDate n₁ db [] files).1
      (syncLoop parseDate n₁ db [] files).2 with
  | none => rw [hc] at h; cases h
  | some d =>
    rw [hc] at h
    have h3 : d = db₁ ∧ (syncLoop parseDate n₁ db [] files).2 = new₁ ∧
        [mkSyncEvent n₁ (syncLoop parseDate n₁ db [] files).2] = evs₁ := by
      simpa using h
    obtain ⟨hd, hnew, hevs⟩ := h3
    have hdapp : d = (syncLoop parseDate n₁ db [] files).1 ++
        (syncLoop parseDate n₁ db [] files).2 := by
      unfold commitSync at hc
      split at hc
      · exact (Option.some.inj hc).symm
      · cases hc
    constructor
    · rw [← hevs, hnew]
    · have hids : db₁.map (fun r => r.file_id) =
          ((syncLoop parseDate n₁ db [] files).1).map (fun r => r.file_id) ++
            ((syncLoop parseDate n₁ db [] files).2).map (fun r => r.file_id) := by
        rw [← hd, hdapp, List.map_append]
      have hcov : ∀ f ∈ files, safe_str f.id ∈ db₁.map (fun r => r.file_id) := by
        intro f hf
        rw [hids]
        exact syncLoop_covers parseDate n₁ files db [] f hf
      have hL2 : (syncLoop parseDate n₂ db₁ [] files).2 = [] :=
        syncLoop_all_present parseDate n₂ files db₁ [] hcov
      have hc2 : commitSync true (syncLoop parseDate n₂ db₁ [] files).1 [] =
          some ((syncLoop parseDate n₂ db₁ [] files).1 ++ []) := by
        unfold commitSync
        rw [if_pos]
        exact ⟨rfl, by simp, by simp⟩
      refine ⟨(syncLoop parseDate n₂ db₁ [] files).1 ++ [], ?_, ?_⟩
      · unfold sync_drive_files
        rw [hL2, hc2]
        rfl
      · rw [List.append_nil, syncLoop_db_ids]

/-- Witness for C4's theorem at a concrete one-file batch: the first call
inserts the row and the theorem applies to its result. -/
theorem sync_drive_files_idempotent_witness :
    (sync_drive_files (fun _ => some 100) 5 true true [] [fileF1] =
      .ok ([newRowOf (fun _ => some 100) 5 fileF1],
        [newRowOf (fun _ => some 100) 5 fileF1],
        [mkSyncEvent 5 [newRowOf (fun _ => some 100) 5 fileF1]])) ∧
    ([mkSyncEvent 5 [newRowOf (fun _ => some 100) 5 fileF1]] =
        [mkSyncEvent 5 [newRowOf (fun _ => some 100) 5 fileF1]] ∧
      ∃ db₂, sync_drive_files (fun _ => some 100) 6 true true
          [newRowOf (fun _ => some 100) 5 fileF1] [fileF1] =
          .ok (db₂, [], [mkSyncEvent 6 []]) ∧
        db₂.map (fun r => r.file_id) =
          [newRowOf (fun _ => some 100) 5 fileF1].map (fun r => r.file_id)) :=
  ⟨rfl, sync_drive_files_idempotent_rows_single_event (fun _ => some 100) 5 6 []
    [newRowOf (fun _ => some 100) 5 fileF1] [newRowOf (fun _ => some 100) 5 fileF1]
    [mkSyncEvent 5 [newRowOf (fun _ => some 100) 5 fileF1]] [fileF1] rfl⟩

/-- C4 counterexample: syncing the unchanged one-file observation list a
second time inserts nothing but does emit one further (empty-listed) event —
the emitted-event list of the second call is not `[]`, refuting "zero
additional emitted events". -/
theorem sync_drive_files_second_call_still_emits :
    sync_drive_files (fun _ => some 100) 5 true true [] [fileF1] =
      .ok ([newRowOf (fun _ => some 100) 5 fileF1],
        [newRowOf (fun _ => some 100) 5 fileF1],
        [mkSyncEvent 5 [newRowOf (fun _ => some 100) 5 fileF1]]) ∧
    sync_drive_files (fun _ => some 100) 6 true true
        [newRowOf (fun _ => some 100) 5 fileF1] [fileF1] =
      .ok ([newRowOf (fun _ => some 100) 5 fileF1], [], [mkSyncEvent 6 []]) ∧
    ([mkSyncEvent 6 []] : List SyncEvent) ≠ [] := by
  refine ⟨rfl, rfl, by simp⟩

/-! ## Analysis Result Ingestion Pipeline
(`app/event/consumer/analysis_save_consumer.py`, tables in
`app/model/db_model.py`)

The nested payload dictionaries are read exclusively through
`dict.get(key, default)`, so each one is modeled as a structure of
`Option` fields (`none` = key absent, `getD` = the Python default).  A
present-but-empty `analysis_results` dictionary is falsy in Python exactly
like an absent key, and both are modeled as `none`.  `float` scores carry
no arithmetic in this code and are modeled as `Int`; JSON list/dict blobs
are modeled as `List String`. -/

structure CriteriaDict where
  score_interview : Option Int
  positives : Option (List String)
  improvements : Option (List String)
  recommendations : Option (List String)
deriving Repr, DecidableEq

structure InitialEvaluationDict where
  final_score : Option Int
  general_recommendations : Option (List String)
  recommended_audiences : Option (List String)
  suggested_questions : Option (List String)
  clarity : Option CriteriaDict
  audience : Option CriteriaDict
  «structure» : Option CriteriaDict
  depth : Option CriteriaDict
  questions : Option CriteriaDict
deriving Repr, DecidableEq

structure CriticalEvaluationDict where
  team_id : Option String
  specificity_of_improvements : Option Bool
  identified_improvement_opportunities : Option Bool
  reflective_quality_scores : Option Bool
  notes : Option String
deriving Repr, DecidableEq

structure MentorDetailsDict where
  executive_summary : Option String
  key_findings : Option (List String)
  discussion_points : Option (List String)
  recommended_questions : Option (List String)
  next_steps : Option (List String)
  alerts : Option (List String)
deriving Repr, DecidableEq

structure MentorReportDict where
  validated_insights : Option (List String)
  pending_hypotheses : Option (List String)
  identified_gaps : Option (List String)
  action_items : Option (List String)
  mentor_details : Option MentorDetailsDict
deriving Repr, DecidableEq

structure AnalysisResultsDict where
  initial_evaluation : Option InitialEvaluationDict
  critical_evaluation : Option CriticalEvaluationDict
  mentor_report : Option MentorReportDict
deriving Repr, DecidableEq

/-- The `.get("initial_evaluation", {})` default: the empty dictionary, on
which every further `.get` returns its default. -/
def emptyInitialEvaluation : InitialEvaluationDict :=
  { final_score := none, general_recommendations := none,
    recommended_audiences := none, suggested_questions := none,
    clarity := none, audience := none, «structure» := none,
    depth := none, questions := none }

/-- An inbound message of the `analysis-events` topic:
`{file_id, analysis_results}` read via `event.get(...)` (consumer
lines 181-182). -/
structure AnalysisEvent where
  file_id : Option String
  analysis_results : Option AnalysisResultsDict
deriving Repr, DecidableEq

/-- Python truthiness of the `event.get('file_id')` value (`not
file_id_drive`): `None` and the empty string are falsy. -/
def pyFalsyStr : Option String → Bool
  | none => true
  | some s => s == ""

/-- The view of a `drive_files` row used by the consumer: the surrogate
primary key `id` and the external `file_id` string. -/
structure DriveFileRef where
  id : Nat
  file_id : String
deriving Repr, DecidableEq

/-- Row of `analysis_results` (db_model.py lines 68-84); the nullable
`initial_evaluation_id` / `critical_evaluation_id` / `mentor_report_id`
columns are never assigned by the consumer and are omitted. -/
structure AnalysisResultRow where
  id : Nat
  file_id : Nat
deriving Repr, DecidableEq

/-- Row of `criteria_evaluations` (db_model.py lines 87-111). -/
structure CriteriaEvaluationRow where
  id : Nat
  analysis_result_id : Nat
  final_score : Int
  general_recommendations_json : List String
  recommended_audiences_json : List String
  suggested_questions_json : List String
deriving Repr, DecidableEq

/-- Row of `evaluation_criteria` (db_model.py lines 114-132).  Note the
mapped columns: there is no `criteria_evaluation_id` and no `criteria_type`
column — only the five per-criterion foreign keys. -/
structure EvaluationCriteriaRow where
  id : Nat
  score_interview : Int
  positives_json : List String
  improvements_json : List String
  recommendations_json : List String
  criteria_evaluation_clarity_id : Option Nat
  criteria_evaluation_audience_id : Option Nat
  criteria_evaluation_structure_id : Option Nat
  criteria_evaluation_depth_id : Option Nat
  criteria_evaluation_questions_id : Option Nat
deriving Repr, DecidableEq

/-- Row of `critical_evaluations` (db_model.py lines 135-145). -/
structure CriticalEvaluationRow where
  id : Nat
  team_id : Option String
  specificity_of_improvements : Bool
  identified_improvement_opportunities : Bool
  reflective_quality_scores : Bool
  notes : String
  analysis_result_id : Nat
deriving Repr, DecidableEq

/-- Row of `analysis_details` (db_model.py lines 148-161). -/
structure AnalysisDetailsRow where
  id : Nat
  validated_insights_json : List String
  pending_hypotheses_json : List String
  identified_gaps_json : List String
  action_items_json : List String
  mentor_details_id : Option Nat
  analysis_result_id : Nat
deriving Repr, DecidableEq

/-- Row of `mentor_report_details` (db_model.py lines 164-175). -/
structure MentorReportDetailsRow where
  id : Nat
  executive_summary : String
  key_findings_json : List String
  discussion_points_json : List String
  recommended_questions_json : List String
  next_steps_json : List String
  alerts_json : List String
  analysis_details_id : Nat
deriving Repr, DecidableEq

/-- The committed tables touched by the ingestion pipeline. -/
structure AnalysisDB where
  drive_files : List DriveFileRef
  analysis_results : List AnalysisResultRow
  criteria_evaluations : List CriteriaEvaluationRow
  evaluation_criteria : List EvaluationCriteriaRow
  critical_evaluations : List CriticalEvaluationRow
  analysis_details : List AnalysisDetailsRow
  mentor_report_details : List MentorReportDetailsRow
deriving Repr, DecidableEq

/-- Declared-column descriptor: `unique` records an explicit `unique=True`
argument (primary keys are implicitly unique and carry `unique := false`
here). -/
structure ColumnSpec where
  name : String
  unique : Bool
  foreign_key : Option String
deriving Repr, DecidableEq

/-- The columns of `analysis_results` as declared in db_model.py
lines 72-77; in particular line 73 is
`file_id = Column(Integer, ForeignKey("drive_files.id"), unique=True)`. -/
def analysisResultsColumns : List ColumnSpec :=
  [ { name := "id", unique := false, foreign_key := none },
    { name := "file_id", unique := true, foreign_key := some "drive_files.id" },
    { name := "initial_evaluation_id", unique := false,
      foreign_key := some "criteria_evaluations.id" },
    { name := "critical_evaluation_id", unique := false,
      foreign_key := some "critical_evaluations.id" },
    { name := "mentor_report_id", unique := false,
      foreign_key := some "analysis_details.id" },
    { name := "created_at", unique := false, foreign_key := none } ]

inductive IngestOutcome where
  /-- Early `return`: the message is logged and dropped (a normal return,
  so the consume loop commits the offset). -/
  | dropped
  /-- A successful `db.commit()` at step 8.  Unreachable in this source:
  step 3 always raises first (see `process_analysis_event`). -/
  | saved
  /-- An exception propagated out of `process_analysis_event` (re-raised as
  `KafkaError` at consumer line 286). -/
  | raised
deriving Repr, DecidableEq

/-- `AnalysisSaveConsumer.process_analysis_event` (consumer lines 177-286).

Preconditions (lines 181-186): a falsy `file_id` or a falsy
`analysis_results` drops the message before the database session is
opened.  A file id with no `drive_files` row drops it too (lines 193-196).

Staged inserts are session-local until the final `db.commit()` at step 8;
the inner `except` (lines 279-282) calls `db.rollback()` and re-raises, so
any failure leaves the committed tables untouched.  `env k = true` injects
an environmental database failure at the k-th `flush` point (k = 1: after
adding the `AnalysisResult`, line 202; k = 2: after adding the
`CriteriaEvaluation`, line 215).  Flush 1 also fails, regardless of `env`,
when the `unique=True` constraint on `analysis_results.file_id`
(db_model.py line 73) is violated by an existing row for the same file.

Step 3 (lines 219-229) constructs
`EvaluationCriteriaModel(criteria_evaluation_id=..., criteria_type=..., ...)`,
but `EvaluationCriteriaModel` (db_model.py lines 114-132) maps neither a
`criteria_evaluation_id` nor a `criteria_type` attribute.  `Base` lives in
`app/config/base.py`, which is not among the sources; modelled from the
spec (§2 treats the store wiring as a narrow external interface) as the
stock SQLAlchemy declarative base, whose default constructor raises
`TypeError` for an unknown keyword argument.  The first loop iteration of
step 3 therefore always raises, the session is rolled back, and steps 4-8 —
including the only `db.commit()` — are never reached. -/
def process_analysis_event (env : Nat → Bool) (db : AnalysisDB)
    (e : AnalysisEvent) : AnalysisDB × IngestOutcome :=
  match e.file_id, e.analysis_results with
  | some fid, some results =>
    if fid = "" then (db, .dropped)
    else
      match db.drive_files.find? (fun r => r.file_id == fid) with
      | none => (db, .dropped)
      | some db_file =>
        -- step 1: AnalysisResultModel(file_id=db_file.id); db.add; db.flush()
        let analysis_result : AnalysisResultRow :=
          { id := db.analysis_results.length + 1, file_id := db_file.id }
        if (db.analysis_results.any (fun a => a.file_id == db_file.id)) || env 1 then
          (db, .raised)
        else
          -- step 2: CriteriaEvaluationModel(...); db.add; db.flush()
          let ied := results.initial_evaluation.getD emptyInitialEvaluation
          let criteria_evaluation : CriteriaEvaluationRow :=
            { id := db.criteria_evaluations.length + 1,
              analysis_result_id := analysis_result.id,
              final_score := ied.final_score.getD 0,
              general_recommendations_json := ied.general_recommendations.getD [],
              recommended_audiences_json := ied.recommended_audiences.getD [],
              suggested_questions_json := ied.suggested_questions.getD [] }
          if env 2 then (db, .raised)
          else
            -- step 3: TypeError on the first loop iteration (see above);
            -- rollback discards analysis_result and criteria_evaluation.
            (db, .raised)
  | _, _ => (db, .dropped)

/-- One iteration of the consume loop in `start` (consumer lines 40-47):
`enable_auto_commit=False` (line 27), and the offset is committed only when
`process_analysis_event` returns without raising; an exception is logged
and the loop continues to the next message without committing. -/
def consume_message (env : Nat → Bool) (db : AnalysisDB) (e : AnalysisEvent) :
    AnalysisDB × Bool :=
  let r := process_analysis_event env db e
  (r.1, match r.2 with | .raised => false | _ => true)

theorem process_analysis_event_db_unchanged (env : Nat → Bool)
    (db : AnalysisDB) (e : AnalysisEvent) :
    (process_analysis_event env db e).1 = db := by
  unfold process_analysis_event
  split
  · split
    · rfl
    · split
      · rfl
      · split
        · rfl
        · split <;> rfl
  · rfl

/-- C9: a malformed analysis message — missing/falsy `file_id`, or a
missing/empty `analysis_results` body — is logged and dropped before the
database session is even opened: every table is left untouched, and the
consume loop commits the offset (the message is not retried). -/
theorem process_analysis_event_drops_malformed
    (env : Nat → Bool) (db : AnalysisDB) (e : AnalysisEvent)
    (h : pyFalsyStr e.file_id = true ∨ e.analysis_results = none) :
    process_analysis_event env db e = (db, .dropped) ∧
    consume_message env db e = (db, true) := by
  have hp : process_analysis_event env db e = (db, .dropped) := by
    cases hf : e.file_id with
    | none => cases hr : e.analysis_results <;> simp [process_analysis_event, hf, hr]
    | some s =>
      cases hr : e.analysis_results with
      | none => simp [process_analysis_event, hf, hr]
      | some res =>
        have hs : s = "" := by
          rcases h with h | h
          · rw [hf] at h; simpa [pyFalsyStr] using h
          · rw [hr] at h; cases h
        simp [process_analysis_event, hf, hr, hs]
  refine ⟨hp, ?_⟩
  simp [consume_message, hp]

/-- The empty database, used by the concrete instances. -/
def emptyAnalysisDB : AnalysisDB :=
  { drive_files := [], analysis_results := [], criteria_evaluations := [],
    evaluation_criteria := [], critical_evaluations := [],
    analysis_details := [], mentor_report_details := [] }

/-- Witness for C9 at the concrete message with no `file_id` at all. -/
theorem process_analysis_event_drops_malformed_witness :
    (pyFalsyStr (AnalysisEvent.mk none none).file_id = true ∨
      (AnalysisEvent.mk none none).analysis_results = none) ∧
    (process_analysis_event (fun _ => false) emptyAnalysisDB
        (AnalysisEvent.mk none none) = (emptyAnalysisDB, .dropped) ∧
      consume_message (fun _ => false) emptyAnalysisDB
        (AnalysisEvent.mk none none) = (emptyAnalysisDB, true)) :=
  ⟨Or.inl rfl,
    process_analysis_event_drops_malformed (fun _ => false) emptyAnalysisDB
      (AnalysisEvent.mk none none) (Or.inl rfl)⟩

/-- C2: for an analysis message that passes the precondition checks and
whose referenced file exists locally, the multi-entity write is
all-or-nothing, and the failure side always holds: any failure while
constructing or inserting the entity graph (an injected flush failure at
steps 1-2, a `unique=True` violation at the step-1 flush, and the
always-raising step-3 construction of this source) rolls the whole unit
back — the database is returned unchanged, with zero rows of any of the
six entities persisted for that file, and the error propagates as
`KafkaError`, so the offset is not committed. -/
theorem process_analysis_event_rolls_back_on_failure
    (env : Nat → Bool) (db : AnalysisDB) (e : AnalysisEvent)
    (fid : String) (results : AnalysisResultsDict) (db_file : DriveFileRef)
    (hfid : e.file_id = some fid) (hne : fid ≠ "")
    (hres : e.analysis_results = some results)
    (hfind : db.drive_files.find? (fun r => r.file_id == fid) = some db_file) :
    process_analysis_event env db e = (db, .raised) ∧
    consume_message env db e = (db, false) := by
  have hp : process_analysis_event env db e = (db, .raised) := by
    simp [process_analysis_event, hfid, hres, hne, hfind]
  refine ⟨hp, ?_⟩
  simp [consume_message, hp]

/-- The database holding exactly the `drive_files` row for file `"f1"`. -/
def dbWithF1 : AnalysisDB :=
  { drive_files := [{ id := 1, file_id := "f1" }], analysis_results := [],
    criteria_evaluations := [], evaluation_criteria := [],
    critical_evaluations := [], analysis_details := [],
    mentor_report_details := [] }

/-- A well-formed analysis event for file `"f1"`. -/
def eventF1 : AnalysisEvent :=
  { file_id := some "f1",
    analysis_results := some
      { initial_evaluation := none, critical_evaluation := none,
        mentor_report := none } }

/-- Witness for C2 at the concrete well-formed event for the present file
`"f1"` with no environmental failure injected. -/
theorem process_analysis_event_rolls_back_witness :
    (eventF1.file_id = some "f1" ∧ "f1" ≠ "" ∧
      eventF1.analysis_results = some
        { initial_evaluation := none, critical_evaluation := none,
          mentor_report := none } ∧
      dbWithF1.drive_files.find? (fun r => r.file_id == "f1") =
        some { id := 1, file_id := "f1" }) ∧
    (process_analysis_event (fun _ => false) dbWithF1 eventF1 = (dbWithF1, .raised) ∧
      consume_message (fun _ => false) dbWithF1 eventF1 = (dbWithF1, false)) :=
  ⟨⟨rfl, by decide, rfl, rfl⟩,
    process_analysis_event_rolls_back_on_failure (fun _ => false) dbWithF1 eventF1
      "f1"
      { initial_evaluation := none, critical_evaluation := none,
        mentor_report := none }
      { id := 1, file_id := "f1" } rfl (by decide) rfl rfl⟩

/-- C6 (amended): the persistence schema DOES declare a uniqueness
constraint on the analysis result's file reference (`unique=True`,
db_model.py line 73), and an ingestion call never adds an analysis-result
row to the committed table at all in this source (step 3 always fails and
rolls back) — so re-ingesting the same external file id under at-least-once
redelivery cannot persist two analysis-result rows for the same file. -/
theorem analysis_result_unique_per_file (env : Nat → Bool) (db : AnalysisDB)
    (e : AnalysisEvent) :
    ((analysisResultsColumns.find? (fun c => c.name == "file_id")).map
        (fun c => c.unique) = some true) ∧
    ((process_analysis_event env db e).1).analysis_results =
      db.analysis_results :=
  ⟨rfl, by rw [process_analysis_event_db_unchanged]⟩

/-- C6 counterexample: the `file_id` column of `analysis_results` is
declared unique, and ingesting the same well-formed event for file `"f1"`
twice leaves 0 analysis-result rows for that file — not 2. -/
theorem analysis_result_no_duplicate_rows_counterexample :
    ((analysisResultsColumns.find? (fun c => c.name == "file_id")).map
        (fun c => c.unique) = some true) ∧
    (((process_analysis_event (fun _ => false)
        (process_analysis_event (fun _ => false) dbWithF1 eventF1).1
        eventF1).1.analysis_results.filter (fun a => a.file_id == 1)).length = 0) ∧
    (0 : Nat) ≠ 2 :=
  ⟨rfl, rfl, by decide⟩

/-! ## Folder Hierarchy Reconciler: `create_drive_folder`
(`app/api/v1/endpoints/drive.py` lines 219-321)

The request schema `FolderCreate` (`app/model/model.py` lines 43-45)
declares exactly two fields, `name` and `parent_folder_id`.  A pydantic
model exposes only its declared fields: reading any other attribute raises
`AttributeError`.  The endpoint's first statement touching the request
(line 235) evaluates `folder_rules.get(folder.folder_type, False)`, i.e. it
reads `folder.folder_type` — which raises, lands in the generic
`except Exception` handler at lines 318-321 (`db.rollback()`, HTTP 500),
and this happens before any remote call or local write.  The validation
block at lines 247-265 (including the `"Root folders must be of type
'team'"` check at line 249, which is additionally nested inside
`if folder.parent_folder_id:` at line 241 and so could never fire for a
root folder anyway) and the reconciliation at lines 267-312 are
unreachable.  Were they reached, they could still not complete: lines
280-286 and 300-306 construct `DriveFolderModel(..., team_id=...,
folder_type=...)` though `drive_folders` (db_model.py lines 11-26) maps
neither column, and line 295 calls `watcher.create_folder` with three
positional arguments though its signature (driver_watcher.py line 231)
accepts at most two. -/

/-- `app/model/model.py` lines 43-45: the `FolderCreate` request schema. -/
structure FolderCreate where
  name : String
  parent_folder_id : Option Nat
deriving Repr, DecidableEq

/-- The attributes a `FolderCreate` instance exposes — exactly its declared
fields (model.py lines 43-45). -/
def FolderCreate.fields : List String := ["name", "parent_folder_id"]

/-- Pydantic attribute lookup: a declared field resolves, anything else
raises `AttributeError`. -/
def pydanticHasAttr (fields : List String) (attr : String) : Bool :=
  fields.contains attr

/-- Remote folder metadata as returned by the Drive client. -/
structure RemoteFolder where
  id : String
  name : String
deriving Repr, DecidableEq

/-- The remote Drive state seen by the endpoint: the watched root folder id
(`watcher.folder_id`) and the folders visible to `find_folder_by_name`. -/
structure RemoteDrive where
  root_folder_id : String
  folders : List RemoteFolder
deriving Repr, DecidableEq

/-- `DriveWatcher.find_folder_by_name` (driver_watcher.py lines 261-290):
first remote folder with the given name, `none` when absent. -/
def find_folder_by_name (remote : RemoteDrive) (folder_name : String) :
    Option RemoteFolder :=
  remote.folders.find? (fun f => f.name == folder_name)

/-- Row of `drive_folders` (db_model.py lines 11-26): the declared columns
are `id`, `name`, `google_drive_folder_id`, `parent_id` and `created_at` —
there is no `team_id` and no `folder_type` column. -/
structure DriveFolderRow where
  id : Nat
  name : String
  google_drive_folder_id : Option String
  parent_id : Option Nat
deriving Repr, DecidableEq

inductive CreateFolderOutcome where
  /-- A `_build_folder_response` result (drive.py lines 324-331). -/
  | ok (message : String) (folder_id : Nat)
      (google_drive_folder_id : Option String) (parent_folder_id : Option Nat)
  /-- An `HTTPException`. -/
  | httpError (status : Nat) (detail : String)
deriving Repr, DecidableEq

/-- `create_drive_folder` (drive.py lines 219-321).  Result components: the
`drive_folders` table after the call, the remote Drive state after the
call, the number of remote folder-creation calls performed, and the HTTP
outcome.  Control flow: line 235 reads `folder.folder_type`; the branch
below on `pydanticHasAttr` mirrors that attribute lookup, and since
`FolderCreate` declares no such field the lookup raises `AttributeError`,
caught by the handler at lines 318-321: rollback, HTTP 500, nothing
written, no remote call made.  (The code behind the `true` branch —
lines 236-312 — is unreachable; see the section comment.) -/
def create_drive_folder (req : FolderCreate) (remote : RemoteDrive)
    (db : List DriveFolderRow) :
    List DriveFolderRow × RemoteDrive × Nat × CreateFolderOutcome :=
  if pydanticHasAttr FolderCreate.fields "folder_type" then
    -- dead branch: "folder_type" is not among FolderCreate.fields
    (db, remote, 0, .httpError 500 "unreachable")
  else
    (db, remote, 0,
      .httpError 500
        "Error creating folder: 'FolderCreate' object has no attribute 'folder_type'")

theorem folderCreate_has_no_folder_type :
    pydanticHasAttr FolderCreate.fields "folder_type" = false := rfl

/-- C3 (code-bug demonstration): two sequential `create_drive_folder` calls
with identical arguments both fail with the HTTP-500 `AttributeError` —
`FolderCreate` declares no `folder_type` field read at drive.py line 235 —
so neither call returns a folder record; the table, the remote state and
the remote-creation count (0) are unchanged by both calls, and the
idempotent reconciliation of lines 267-291 is never reached. -/
theorem create_drive_folder_attribute_error_twice :
    create_drive_folder (FolderCreate.mk "Equipo A" none)
        (RemoteDrive.mk "root" []) [] =
      ([], RemoteDrive.mk "root" [], 0,
        .httpError 500
          "Error creating folder: 'FolderCreate' object has no attribute 'folder_type'") ∧
    create_drive_folder (FolderCreate.mk "Equipo A" none)
        (create_drive_folder (FolderCreate.mk "Equipo A" none)
          (RemoteDrive.mk "root" []) []).2.1
        (create_drive_folder (FolderCreate.mk "Equipo A" none)
          (RemoteDrive.mk "root" []) []).1 =
      ([], RemoteDrive.mk "root" [], 0,
        .httpError 500
          "Error creating folder: 'FolderCreate' object has no attribute 'folder_type'") :=
  ⟨rfl, rfl⟩

/-- C5 (code-bug demonstration): a root-folder request (no parent, intended
non-"team" type) is rejected with the generic HTTP-500 `AttributeError`,
not with the `"Root folders must be of type 'team'"` validation error —
that check (drive.py line 249) sits inside `if folder.parent_folder_id:`
and can never fire for a root folder, and the request schema cannot carry a
folder type at all.  No remote or local write happens either way. -/
theorem create_drive_folder_root_validation_unreachable :
    create_drive_folder (FolderCreate.mk "Recursos" none)
        (RemoteDrive.mk "root" []) [] =
      ([], RemoteDrive.mk "root" [], 0,
        .httpError 500
          "Error creating folder: 'FolderCreate' object has no attribute 'folder_type'") ∧
    (CreateFolderOutcome.httpError 500
        "Error creating folder: 'FolderCreate' object has no attribute 'folder_type'" ≠
      CreateFolderOutcome.httpError 400 "Root folders must be of type 'team'") :=
  ⟨rfl, by decide⟩

/-- C8 (code-bug demonstration): with the folder absent remotely, the call
performs zero remote folder-creation calls and writes no local record: it
fails with the HTTP-500 `AttributeError` before the absent-remotely branch
(drive.py lines 292-312) can run — and that branch could not complete
either, since line 295 passes three positional arguments to
`DriveWatcher.create_folder` (driver_watcher.py line 231), which accepts at
most two. -/
theorem create_drive_folder_absent_remote_no_writes :
    find_folder_by_name (RemoteDrive.mk "root" []) "Proyecto X" = none ∧
    create_drive_folder (FolderCreate.mk "Proyecto X" none)
        (RemoteDrive.mk "root" []) [] =
      ([], RemoteDrive.mk "root" [], 0,
        .httpError 500
          "Error creating folder: 'FolderCreate' object has no attribute 'folder_type'") :=
  ⟨rfl, rfl⟩
